import Mathlib

/-!
Verification of the price reconciliation engine of `scr/data_updater.py`
(repository `Serv_Integration_Sheets`).

The shallow embedding below translates the two public entry points of that
file, `update_prices` and `update_and_merge_dataframes`, together with their
helper functions (`validate_price`, `check_price_change`,
`validate_discounts_and_prices`, `create_log_entry`, and the nested
`process_row` of the merger), into executable Lean definitions.

Modelling conventions:
* A spreadsheet cell is a `Cell`: a string, a (rational) number standing for a
  Python float, a Python boolean, or a missing value (`None`/`NaN`).
  Prices are rationals; the claims under study only involve comparisons and
  exact decimal literals, where float and rational arithmetic agree.
* A dataframe is a `List Row`; a `Row` has one field per column role named in
  the `columns_dict` of the source (plus the literal `Flag` column read by
  `row.get('Flag', '')`).  The presence of the optional discount and
  min-price column pairs is a `Cfg` flag, mirroring the
  `all(key in columns_dict for ...)` guards.
* The SQLite audit sink is modelled by a boolean `dbOk`: the source catches
  `sqlite3.Error`, in which case the `with` block rolls back and the function
  returns `(None, None)`; the per-pass list of inserted audit entries is
  returned alongside the two dataframe outputs.
* `datetime.now()` is a timestamp string parameter (its value never affects
  control flow).
-/

namespace DataUpdater

/-- A spreadsheet cell value: a string, a number (Python float, modelled as a
rational), a Python boolean (written by `updated_df.at[idx, 'Flag'] = False`),
or a missing value (`None`/`NaN`). -/
inductive Cell where
  | str (s : String)
  | num (q : ℚ)
  | bool (b : Bool)
  | none
deriving DecidableEq, Repr

/-- Uppercasing as used by the `Flag` gate (`str(...).upper()`), mapped over
the characters of the string.  Python also uppercases non-ASCII letters, but
no non-ASCII uppercase form ever equals the Latin `TRUE` or `+` the gate
compares against, so the gate's outcome is unaffected. -/
def pyUpper (s : String) : String :=
  String.mk (s.data.map Char.toUpper)

/-- Joining a list of strings with a separator (Python `sep.join(parts)`). -/
def pyJoin (sep : String) : List String → String
  | [] => ""
  | [x] => x
  | x :: xs => x ++ sep ++ pyJoin sep xs

/-- Splitting a character list at every occurrence of a separator
character (Python `str.split(sep)` over the characters). -/
def splitChar (sep : Char) : List Char → List (List Char)
  | [] => [[]]
  | c :: cs =>
    if c = sep then [] :: splitChar sep cs
    else
      match splitChar sep cs with
      | h :: t => (c :: h) :: t
      | [] => [[c]]

/-- The numeric value of a list of decimal digits; fails on any non-digit. -/
def digitsVal (cs : List Char) : Option ℕ :=
  cs.foldl (fun acc c =>
    acc.bind (fun n => if c.isDigit then some (n * 10 + (c.toNat - 48)) else Option.none))
    (some 0)

/-- Fragment of Python `float(str)` used by `validate_price` and
`process_row`: an optional sign followed by decimal digits with at most one
decimal point (at least one digit overall).  Scientific notation, `inf`,
`nan`, underscores and surrounding whitespace are accepted by Python but are
not exercised by this repository's data and are not modelled. -/
def parseFloat (s : String) : Option ℚ :=
  let (neg, t) :=
    match s.data with
    | '-' :: cs => (true, cs)
    | '+' :: cs => (false, cs)
    | cs => (false, cs)
  match splitChar '.' t with
  | [i] =>
    if i = [] then Option.none
    else (digitsVal i).map (fun n => if neg then -(n : ℚ) else (n : ℚ))
  | [i, f] =>
    if i = [] ∧ f = [] then Option.none
    else
      match digitsVal i, digitsVal f with
      | some a, some b =>
        let v : ℚ := (a : ℚ) + (b : ℚ) / ((10 : ℚ) ^ f.length)
        some (if neg then -v else v)
      | _, _ => Option.none
  | _ => Option.none

/-- Python's `repr` of a float as used in the engine's f-strings, modelled
exactly for floats holding integral values (`repr(float(n)) = "n.0"`); other
rationals get a fallback rendering that does not occur at the inputs the
messages are evaluated at in this development. -/
def pyRepr (q : ℚ) : String :=
  if q.den = 1 then toString q.num ++ ".0"
  else toString q.num ++ "/" ++ toString q.den

/-- Python `repr` of an optional float (`None` prints as `"None"`). -/
def pyReprOpt : Option ℚ → String
  | some q => pyRepr q
  | Option.none => "None"

/-- `validate_price` of `update_prices`:
`float(value) if value != 'Нет Значения' else None`, with
`ValueError`/`TypeError` mapped to `None`.  `float` of a Python bool yields
0.0/1.0; `float(None)` raises `TypeError`. -/
def validate_price : Cell → Option ℚ
  | Cell.str s => if s = "Нет Значения" then Option.none else parseFloat s
  | Cell.num q => some q
  | Cell.bool b => some (if b then 1 else 0)
  | Cell.none => Option.none

/-- `check_price_change` of `update_prices`, verbatim branch order: missing
values, zero-bootstrap, new-zero, 50% bound, otherwise accept. -/
def check_price_change (old_price new_price : Option ℚ) : Bool × String :=
  match old_price, new_price with
  | some o, some n =>
    if o = 0 ∧ n ≠ 0 then
      (true, "Старая цена была 0, обновлено на " ++ pyRepr n)
    else if n = 0 then
      (false, "Новая цена стала 0, требуется проверка")
    else if |n - o| / o > 1 / 2 then
      (false, "Изменение цены с " ++ pyRepr o ++ " на " ++ pyRepr n ++
        " превышает 50%, цена не изменена")
    else (true, "")
  | _, _ => (false, "Отсутствует старая или новая цена")

/-- The per-row processing gate `str(row.get('Flag', '')).upper() in
['TRUE', '+']`.  The `repr` of a Python float or of `NaN` is never `TRUE` or
`+`, so numeric and missing flags never pass the gate; `str(True).upper()` is
`TRUE` and `str(False).upper()` is `FALSE`. -/
def flagIsSet : Cell → Bool
  | Cell.str s => pyUpper s = "TRUE" ∨ pyUpper s = "+"
  | Cell.num _ => false
  | Cell.bool b => b
  | Cell.none => false

/-- One product row of the input dataframe, one field per column role of
`columns_dict` plus the literal `Flag` column. -/
structure Row where
  id : Cell
  product_id : Cell
  old_price : Cell
  price : Cell
  disc_base : Cell
  disc_manual : Cell
  min_base : Cell
  min_new : Cell
  prim : Cell
  flag : Cell
deriving DecidableEq, Repr

/-- Which optional column pairs `columns_dict` contains (the source guards
both the validation and the mutation of discounts and minimum prices with
`all(key in columns_dict for key in [...])`). -/
structure Cfg where
  hasDisc : Bool
  hasMin : Bool
deriving DecidableEq, Repr

/-- The frame-level preprocessing
`df.replace('', np.nan).fillna(value='Нет Значения')` applied to one cell:
empty strings and missing values become the `'Нет Значения'` sentinel. -/
def fillCell : Cell → Cell
  | Cell.str s => if s = "" then Cell.str "Нет Значения" else Cell.str s
  | Cell.none => Cell.str "Нет Значения"
  | c => c

/-- `fillCell` on every cell of a row. -/
def fillRow (r : Row) : Row :=
  { id := fillCell r.id, product_id := fillCell r.product_id,
    old_price := fillCell r.old_price, price := fillCell r.price,
    disc_base := fillCell r.disc_base, disc_manual := fillCell r.disc_manual,
    min_base := fillCell r.min_base, min_new := fillCell r.min_new,
    prim := fillCell r.prim, flag := fillCell r.flag }

/-- `validate_discounts_and_prices` of `update_prices`: error strings for the
discount pair and the min-price pair, each checked only when its column pair
is configured. -/
def validate_discounts_and_prices (cfg : Cfg) (row : Row) : List String :=
  (if cfg.hasDisc then
    (if validate_price row.disc_base = Option.none then
      ["Некорректное значение базовой скидки"] else []) ++
    (if validate_price row.disc_manual = Option.none then
      ["Некорректное значение ручной скидки"] else [])
  else []) ++
  (if cfg.hasMin then
    (if validate_price row.min_base = Option.none then
      ["Некорректное значение базовой минимальной цены"] else []) ++
    (if validate_price row.min_new = Option.none then
      ["Некорректное значение новой минимальной цены"] else [])
  else [])

/-- One record of the `price_change_log` table, in the column order of the
`CREATE TABLE` statement. -/
structure AuditEntry where
  timestamp : String
  id : Cell
  product_id : Cell
  old_price : Option ℚ
  new_price : Option ℚ
  old_discount : Option ℚ
  new_discount : Option ℚ
  old_min_price : Option ℚ
  new_min_price : Option ℚ
  prim : String
  change_applied : ℕ
deriving DecidableEq, Repr

/-- `create_log_entry` of `update_prices`: the tuple bound as an
`AuditEntry`; `id` and `product_id` are read from the (unmodified) input
row. -/
def create_log_entry (timestamp : String) (row : Row)
    (old_price new_price old_discount new_discount old_min_price new_min_price : Option ℚ)
    (prim : String) (change_applied : ℕ) : AuditEntry :=
  { timestamp := timestamp, id := row.id, product_id := row.product_id,
    old_price := old_price, new_price := new_price,
    old_discount := old_discount, new_discount := new_discount,
    old_min_price := old_min_price, new_min_price := new_min_price,
    prim := prim, change_applied := change_applied }

/-- The `change_info` dictionary appended to `changes`: the original row's
field values with the freshly written fields patched in (`row.to_dict()`
updated in place), plus the extra keys `old_discount`/`new_discount`/
`old_min_price`/`new_min_price` (absent keys modelled as `Option.none`) and
the `change_applied` marker. -/
structure ChangeInfo where
  row : Row
  old_discount : Option ℚ
  new_discount : Option ℚ
  old_min_price : Option ℚ
  new_min_price : Option ℚ
  change_applied : Bool
deriving DecidableEq, Repr

/-- Writing a validated value back into a dataframe cell (`None` would be
stored as a missing value). -/
def optCell : Option ℚ → Cell
  | some q => Cell.num q
  | Option.none => Cell.none

/-- Outcome of the loop body of `update_prices` for one data row: the row of
`updated_df` after the iteration, the audit entries inserted during it, and
the `change_info` appended to `changes` (if any). -/
structure RowResult where
  updated : Row
  audits : List AuditEntry
  change : Option ChangeInfo
deriving DecidableEq, Repr

/-- The discount-delta computation of the loop body (lines 198-211 of the
source): when the discount column pair is configured, the validated pair
`(old_disc_in_base, old_disc_manual)` if the two differ. -/
def discDelta (cfg : Cfg) (row : Row) : Option (Option ℚ × Option ℚ) :=
  if cfg.hasDisc then
    let old_disc_in_base := validate_price row.disc_base
    let old_disc_manual := validate_price row.disc_manual
    if old_disc_in_base ≠ old_disc_manual then some (old_disc_in_base, old_disc_manual)
    else Option.none
  else Option.none

/-- The min-price-delta computation of the loop body (lines 214-227 of the
source). -/
def minDelta (cfg : Cfg) (row : Row) : Option (Option ℚ × Option ℚ) :=
  if cfg.hasMin then
    let min_price_base := validate_price row.min_base
    let min_price_new := validate_price row.min_new
    if min_price_base ≠ min_price_new then some (min_price_base, min_price_new)
    else Option.none
  else Option.none

/-- The change-application section of the loop body of `update_prices`
(lines 186-261 of the source), entered once `check_price_change` has
accepted: mutate price / discount / min price where the compared values
differ, compose the combined `Изменены: ...` note, insert one audit entry
with `change_applied = 1`, append `change_info`, and clear the `Flag`
column. -/
def applyChanges (cfg : Cfg) (ts : String) (row : Row)
    (old_price new_price : Option ℚ) : RowResult :=
  let discPart := discDelta cfg row
  let minPart := minDelta cfg row
  if new_price ≠ old_price ∨ discPart.isSome = true ∨ minPart.isSome = true then
    let prim_parts : List String :=
      (if new_price ≠ old_price then
        ["цена с " ++ pyReprOpt old_price ++ " на " ++ pyReprOpt new_price] else []) ++
      (match discPart with
        | some (db, dm) => ["скидка с " ++ pyReprOpt db ++ " на " ++ pyReprOpt dm]
        | Option.none => []) ++
      (match minPart with
        | some (mb, mn) => ["минимальная цена с " ++ pyReprOpt mb ++ " на " ++ pyReprOpt mn]
        | Option.none => [])
    let prim := "Изменены: " ++ pyJoin " и " prim_parts ++ " (" ++ ts ++ ")"
    let ciRow : Row :=
      { row with
        price := if new_price ≠ old_price then optCell new_price else row.price,
        disc_base := match discPart with
          | some (_, dm) => optCell dm
          | Option.none => row.disc_base,
        min_base := match minPart with
          | some (_, mn) => optCell mn
          | Option.none => row.min_base,
        prim := Cell.str prim }
    { updated :=
        { row with
          old_price := if new_price ≠ old_price then optCell new_price else row.old_price,
          disc_base := match discPart with
            | some (_, dm) => optCell dm
            | Option.none => row.disc_base,
          min_base := match minPart with
            | some (_, mn) => optCell mn
            | Option.none => row.min_base,
          prim := Cell.str prim,
          flag := Cell.bool false },
      audits := [create_log_entry ts row
        (if new_price ≠ old_price then old_price else Option.none)
        (if new_price ≠ old_price then new_price else Option.none)
        (discPart.bind Prod.fst) (discPart.bind Prod.snd)
        (minPart.bind Prod.fst) (minPart.bind Prod.snd) prim 1],
      change := some
        { row := ciRow,
          old_discount := discPart.bind Prod.fst,
          new_discount := discPart.bind Prod.snd,
          old_min_price := minPart.bind Prod.fst,
          new_min_price := minPart.bind Prod.snd,
          change_applied := true } }
  else
    { updated := row, audits := [], change := Option.none }

/-- The loop body of `update_prices` for one (already preprocessed) data row
(lines 124-261 of the source): the `Flag` gate, discount/min-price
validation, the `check_price_change` gate, then `applyChanges`. -/
def reconcileRow (cfg : Cfg) (ts : String) (row : Row) : RowResult :=
  if flagIsSet row.flag = false then
    let updated_prim := "Пропущено " ++ ts
    { updated := { row with prim := Cell.str updated_prim },
      audits := [create_log_entry ts row Option.none Option.none Option.none Option.none
        Option.none Option.none updated_prim 0],
      change := Option.none }
  else
    let old_price := validate_price row.old_price
    let new_price := validate_price row.price
    let validation_errors := validate_discounts_and_prices cfg row
    if validation_errors ≠ [] then
      let error_message := pyJoin "; " validation_errors ++ " (" ++ ts ++ ")"
      { updated := { row with prim := Cell.str error_message },
        audits := [create_log_entry ts row Option.none Option.none Option.none Option.none
          Option.none Option.none error_message 0],
        change := Option.none }
    else
      let checked := check_price_change old_price new_price
      if checked.1 = false then
        let updated_message := checked.2 ++ " (" ++ ts ++ ")"
        { updated := { row with prim := Cell.str updated_message },
          audits := [create_log_entry ts row old_price new_price Option.none Option.none
            Option.none Option.none updated_message 0],
          change := Option.none }
      else
        applyChanges cfg ts row old_price new_price

/-- The output of one `update_prices` call: the two returned dataframes
(`None` on a storage failure; `changed` also `None` when no change was
applied) and the audit entries committed to the log table (none are
persisted on a storage failure: the connection context rolls back). -/
structure PassOutput where
  updated : Option (List Row)
  changed : Option (List ChangeInfo)
  audits : List AuditEntry
deriving DecidableEq, Repr

/-- `update_prices` of `scr/data_updater.py`: preprocess every cell, drop
the first row (`df = df.iloc[1:]`), run the loop body on each remaining row,
and assemble the two outputs; on a storage failure return `(None, None)`. -/
def update_prices (cfg : Cfg) (ts : String) (dbOk : Bool) (rows : List Row) : PassOutput :=
  if dbOk then
    let data := (rows.map fillRow).drop 1
    let results := data.map (reconcileRow cfg ts)
    let changes := results.filterMap RowResult.change
    { updated := some (results.map RowResult.updated),
      changed := if changes = [] then Option.none else some changes,
      audits := results.flatMap RowResult.audits }
  else
    { updated := Option.none, changed := Option.none, audits := [] }

/-- Python `str.split()` with no argument: split on runs of whitespace,
discarding empty fragments. -/
def pySplit (s : String) : List String :=
  ((splitChar ' ' (s.data.map (fun c => if c.isWhitespace then ' ' else c))).filter
    (fun w => w ≠ [])).map String.mk

/-- The nested `process_row` of `update_and_merge_dataframes`: rewrite the
`prim` annotation of a rejected row and try to recover a price from its 4th
whitespace-delimited word.  (Python's `not text or text.isspace()` is
exactly "every character is whitespace", the empty string included.) -/
def process_row (text : String) : String × Option ℚ :=
  if text.data.all Char.isWhitespace then
    ("Ошибка проведения операции со стороны маркетплейса (пустая строка). " ++
      "Параметры не применены, но изменены в таблице во избежание повторной обработки данной строки.",
      Option.none)
  else
    let words := pySplit text
    let first_word := words.headD ""
    let processed_text :=
      if first_word = "Изменена" then
        let remaining_text :=
          if words.length > 2 then pyJoin " " (words.drop 2) else ""
        if remaining_text ≠ "" then
          "Ошибка от маркетплейса при попытке изменения цены " ++ remaining_text
        else "Ошибка от маркетплейса при попытке изменения цены"
      else
        "Ошибка проведения следующей операции со стороны маркетплейса (" ++ text ++ "). " ++
          "Параметры не применены, но изменены в таблице во избежание повторной обработки данной строки."
    let price :=
      if words.length ≥ 4 then
        parseFloat (String.mk ((words.getD 3 "").data.map (fun c => if c = ',' then '.' else c)))
      else Option.none
    (processed_text, price)

/-- One row of the dataframes handled by `update_and_merge_dataframes`: the
join key, the `prim` annotation and the `price` column. -/
structure MRow where
  key : String
  prim : String
  price : Cell
deriving DecidableEq, Repr

/-- `update_and_merge_dataframes` of `scr/data_updater.py`: every row of
`df2` is run through `process_row`; each row of `df1` whose key matches a
`df2` key gets the processed annotation, and the recovered price when one
was extracted.  Duplicate `df2` keys resolve to the last occurrence
(`dict(zip(...))` keeps the last value); `df1` rows with no match pass
through unchanged.  The final `fillna('')` only affects missing values,
which the model does not produce. -/
def update_and_merge_dataframes (df1 df2 : List MRow) : List MRow :=
  df1.map fun r =>
    match (df2.filter (fun s => s.key = r.key)).getLast? with
    | some s =>
      let processed := process_row s.prim
      { r with
        prim := processed.1,
        price := match processed.2 with
          | some q => Cell.num q
          | Option.none => r.price }
    | Option.none => r

/-! ### Concrete fixtures used by counterexamples and witnesses -/

/-- Minimal column configuration (`COLUMNS_MINIMAL`): no discount and no
min-price pair. -/
def cfgMin : Cfg := { hasDisc := false, hasMin := false }

/-- Full column configuration (`COLUMNS_FULL`). -/
def cfgFull : Cfg := { hasDisc := true, hasMin := true }

/-- A fixed timestamp for the first pass of the examples. -/
def ts0 : String := "2024-01-01 00:00"

/-- A fixed timestamp for the second pass of the examples. -/
def ts1 : String := "2024-01-01 00:05"

/-- A header/description row, as spreadsheet callers prepend. -/
def rowHdr : Row :=
  { id := Cell.str "ID", product_id := Cell.str "PRODUCT_ID",
    old_price := Cell.str "OLD_PRICE", price := Cell.str "NEW_PRICE",
    disc_base := Cell.str "OLD_DISCOUNT", disc_manual := Cell.str "NEW_DISCOUNT",
    min_base := Cell.str "OLD_MIN_PRICE", min_new := Cell.str "NEW_MIN_PRICE",
    prim := Cell.str "ПРИМЕЧАНИЕ", flag := Cell.str "Flag" }

/-- A flagged data row with old price 100 and observed price 105. -/
def rowA : Row :=
  { id := Cell.str "a1", product_id := Cell.str "p1",
    old_price := Cell.num 100, price := Cell.num 105,
    disc_base := Cell.num 0, disc_manual := Cell.num 0,
    min_base := Cell.num 0, min_new := Cell.num 0,
    prim := Cell.str "p", flag := Cell.str "TRUE" }

/-- `rowA` after one reconciliation pass at `ts0`: price adopted, note
written, flag cleared. -/
def rowA1 : Row :=
  { id := Cell.str "a1", product_id := Cell.str "p1",
    old_price := Cell.num 105, price := Cell.num 105,
    disc_base := Cell.num 0, disc_manual := Cell.num 0,
    min_base := Cell.num 0, min_new := Cell.num 0,
    prim := Cell.str "Изменены: цена с 100.0 на 105.0 (2024-01-01 00:00)",
    flag := Cell.bool false }

/-- The `change_info` entry produced for `rowA` at `ts0`. -/
def changeA : ChangeInfo :=
  { row :=
      { id := Cell.str "a1", product_id := Cell.str "p1",
        old_price := Cell.num 100, price := Cell.num 105,
        disc_base := Cell.num 0, disc_manual := Cell.num 0,
        min_base := Cell.num 0, min_new := Cell.num 0,
        prim := Cell.str "Изменены: цена с 100.0 на 105.0 (2024-01-01 00:00)",
        flag := Cell.str "TRUE" },
    old_discount := Option.none, new_discount := Option.none,
    old_min_price := Option.none, new_min_price := Option.none,
    change_applied := true }

/-- A flagged data row whose prices already agree (silent no-change case). -/
def rowEq : Row :=
  { rowA with price := Cell.num 100 }

/-- A data row that is not flagged for processing. -/
def rowSkip : Row :=
  { rowA with flag := Cell.str "нет" }

/-- A flagged row with a 100 → 0 observation (new price zero). -/
def rowZero : Row :=
  { rowA with price := Cell.num 0 }

/-- A flagged row whose both prices are zero. -/
def rowBothZero : Row :=
  { rowA with old_price := Cell.num 0, price := Cell.num 0 }

/-- A flagged row with a 0 → 50 observation (bootstrap case). -/
def rowBoot : Row :=
  { rowA with old_price := Cell.num 0, price := Cell.num 50 }

/-- A flagged row with a 100 → 160 observation (60% increase). -/
def rowBig : Row :=
  { rowA with price := Cell.num 160 }

/-- A flagged row with a malformed base-discount cell. -/
def rowBadDisc : Row :=
  { rowA with disc_base := Cell.str "abc" }

/-- `rowSkip` after one reconciliation pass at `ts0`: only its annotation
received the skip note. -/
def rowSkip1 : Row :=
  { rowSkip with prim := Cell.str "Пропущено 2024-01-01 00:00" }

/-- A merged-output row before patching (price 500). -/
def mBase : MRow := { key := "k", prim := "old note", price := Cell.num 500 }

/-- A rejected row carrying the scenario annotation of the spec. -/
def mRej : MRow :=
  { key := "k", prim := "Изменена цена с 100 на 105", price := Cell.num 105 }

section DecidableEvaluation

attribute [local semireducible] Rat.add Rat.sub Rat.mul Rat.inv

/-! ### Helper lemmas about the branch structure of the loop body -/

/-- `fillCell` is idempotent. -/
lemma fillCell_fillCell (c : Cell) : fillCell (fillCell c) = fillCell c := by
  cases c with
  | str s =>
    by_cases hs : s = ""
    · simp [fillCell, hs]
    · simp [fillCell, hs]
  | num q => rfl
  | bool b => rfl
  | none => rfl

/-- `fillRow` is idempotent. -/
lemma fillRow_fillRow (r : Row) : fillRow (fillRow r) = fillRow r := by
  simp [fillRow, fillCell_fillCell]

/-- `fillRow` on a row whose cells are already filled only refills the
overwritten annotation cell. -/
lemma fillRow_set_prim (r : Row) (c : Cell) (hr : fillRow r = r) :
    fillRow { r with prim := c } = { r with prim := fillCell c } := by
  have h1 : fillCell r.id = r.id := congrArg Row.id hr
  have h2 : fillCell r.product_id = r.product_id := congrArg Row.product_id hr
  have h3 : fillCell r.old_price = r.old_price := congrArg Row.old_price hr
  have h4 : fillCell r.price = r.price := congrArg Row.price hr
  have h5 : fillCell r.disc_base = r.disc_base := congrArg Row.disc_base hr
  have h6 : fillCell r.disc_manual = r.disc_manual := congrArg Row.disc_manual hr
  have h7 : fillCell r.min_base = r.min_base := congrArg Row.min_base hr
  have h8 : fillCell r.min_new = r.min_new := congrArg Row.min_new hr
  have h10 : fillCell r.flag = r.flag := congrArg Row.flag hr
  simp [fillRow, h1, h2, h3, h4, h5, h6, h7, h8, h10]

/-- The condition under which the loop body of `update_prices` appends a
`change_info` entry: the row passed the `Flag` gate, the discount/min-price
validation and `check_price_change`, and at least one of the three compared
fields differs. -/
def willChange (cfg : Cfg) (row : Row) : Prop :=
  flagIsSet row.flag = true ∧
  validate_discounts_and_prices cfg row = [] ∧
  (check_price_change (validate_price row.old_price) (validate_price row.price)).1 = true ∧
  (validate_price row.price ≠ validate_price row.old_price ∨
    (discDelta cfg row).isSome = true ∨ (minDelta cfg row).isSome = true)

instance (cfg : Cfg) (row : Row) : Decidable (willChange cfg row) := by
  unfold willChange; infer_instance

/-- The silent no-change outcome of the loop body: the row passed the
`Flag` gate, the discount/min-price validation and `check_price_change`,
yet none of the three compared fields differs — the only outcome in which
the loop body reaches neither `INSERT`. -/
def silentRow (cfg : Cfg) (row : Row) : Prop :=
  flagIsSet row.flag = true ∧
  validate_discounts_and_prices cfg row = [] ∧
  (check_price_change (validate_price row.old_price) (validate_price row.price)).1 = true ∧
  validate_price row.price = validate_price row.old_price ∧
  (discDelta cfg row).isSome = false ∧
  (minDelta cfg row).isSome = false

instance (cfg : Cfg) (row : Row) : Decidable (silentRow cfg row) := by
  unfold silentRow; infer_instance

/-- A row produces a `change_info` entry exactly when `willChange` holds. -/
lemma change_eq_none_iff (cfg : Cfg) (ts : String) (row : Row) :
    (reconcileRow cfg ts row).change = Option.none ↔ ¬ willChange cfg row := by
  unfold willChange
  by_cases hf : flagIsSet row.flag = false
  · simp [reconcileRow, hf]
  · have hf2 : flagIsSet row.flag = true := by
      revert hf; cases flagIsSet row.flag <;> simp
    by_cases hv : validate_discounts_and_prices cfg row = []
    · by_cases hc :
        (check_price_change (validate_price row.old_price) (validate_price row.price)).1 = false
      · simp [reconcileRow, hf, hv, hc, hf2]
      · have hc2 :
          (check_price_change (validate_price row.old_price) (validate_price row.price)).1
            = true := by
          revert hc
          cases (check_price_change (validate_price row.old_price)
            (validate_price row.price)).1 <;> simp
        by_cases hA : (validate_price row.price ≠ validate_price row.old_price ∨
            (discDelta cfg row).isSome = true ∨ (minDelta cfg row).isSome = true)
        · simp [reconcileRow, applyChanges, hf, hv, hc, hA, hf2, hc2]
        · simp [reconcileRow, applyChanges, hf, hv, hc, hA, hf2, hc2]
    · simp [reconcileRow, hf, hv, hf2]

/-- A row that appends no `change_info` leaves `updated_df` untouched except
(possibly) for its annotation cell. -/
lemma updated_set_prim_of_not_willChange (cfg : Cfg) (ts : String) (row : Row)
    (hnW : ¬ willChange cfg row) :
    ∃ m, (reconcileRow cfg ts row).updated = { row with prim := m } := by
  by_cases hf : flagIsSet row.flag = false
  · exact ⟨Cell.str ("Пропущено " ++ ts), by simp [reconcileRow, hf]⟩
  · have hf2 : flagIsSet row.flag = true := by
      revert hf; cases flagIsSet row.flag <;> simp
    by_cases hv : validate_discounts_and_prices cfg row = []
    · by_cases hc :
        (check_price_change (validate_price row.old_price) (validate_price row.price)).1 = false
      · exact ⟨Cell.str ((check_price_change (validate_price row.old_price)
            (validate_price row.price)).2 ++ " (" ++ ts ++ ")"),
          by simp [reconcileRow, hf, hv, hc]⟩
      · by_cases hA : (validate_price row.price ≠ validate_price row.old_price ∨
            (discDelta cfg row).isSome = true ∨ (minDelta cfg row).isSome = true)
        · have hc2 :
            (check_price_change (validate_price row.old_price) (validate_price row.price)).1
              = true := by
            revert hc
            cases (check_price_change (validate_price row.old_price)
              (validate_price row.price)).1 <;> simp
          exact absurd ⟨hf2, hv, hc2, hA⟩ hnW
        · exact ⟨row.prim, by simp [reconcileRow, applyChanges, hf, hv, hc, hA]⟩
    · exact ⟨Cell.str (pyJoin "; " (validate_discounts_and_prices cfg row) ++
          " (" ++ ts ++ ")"), by simp [reconcileRow, hf, hv]⟩

/-- A row that appends a `change_info` gets its `Flag` cell cleared to the
Python boolean `False`. -/
lemma flag_cleared_of_willChange (cfg : Cfg) (ts : String) (row : Row)
    (hW : willChange cfg row) :
    (reconcileRow cfg ts row).updated.flag = Cell.bool false := by
  obtain ⟨h1, h2, h3, h4⟩ := hW
  simp [reconcileRow, applyChanges, h1, h2, h3, h4]

/-- Reprocessing the output row of one loop-body pass (after frame-level
preprocessing) never appends a `change_info` entry. -/
lemma second_pass_change_none (cfg : Cfg) (t1 t2 : String) (r : Row)
    (hr : fillRow r = r) :
    (reconcileRow cfg t2 (fillRow (reconcileRow cfg t1 r).updated)).change = Option.none := by
  by_cases hW : willChange cfg r
  · have hflag : (fillRow (reconcileRow cfg t1 r).updated).flag = Cell.bool false := by
      have h := flag_cleared_of_willChange cfg t1 r hW
      show fillCell (reconcileRow cfg t1 r).updated.flag = Cell.bool false
      rw [h]; rfl
    rw [change_eq_none_iff]
    intro hW2
    have h1 : flagIsSet (fillRow (reconcileRow cfg t1 r).updated).flag = true := hW2.1
    rw [hflag] at h1
    simp [flagIsSet] at h1
  · obtain ⟨m, hm⟩ := updated_set_prim_of_not_willChange cfg t1 r hW
    rw [hm, fillRow_set_prim r m hr, change_eq_none_iff]
    exact fun hW2 => hW ⟨hW2.1, hW2.2.1, hW2.2.2.1, hW2.2.2.2⟩

/-! ### Claims -/

/-- C1 (counterexample). The first input row is NOT passed through to the
updated-rows output: on a two-row input the output has a single row and its
first element is not the input's header row — `df = df.iloc[1:]` removes the
header before `updated_df = df.copy()` is taken. -/
theorem header_row_not_in_output :
    ((update_prices cfgMin ts0 true [rowHdr, rowA]).updated.getD []).length = 1 ∧
    ((update_prices cfgMin ts0 true [rowHdr, rowA]).updated.getD []).head? ≠ some rowHdr := by
  decide

/-- C1 (amended). `update_prices` drops the first input row before
processing: the updated-rows output has `rows.length - 1` entries and its
`i`-th entry is the processed form of input row `i + 1`; the first input row
appears in the output at no position. -/
theorem first_row_dropped (cfg : Cfg) (ts : String) (rows us : List Row) (i : ℕ)
    (h : (update_prices cfg ts true rows).updated = some us) :
    us.length = rows.length - 1 ∧
    us[i]? = (rows[i + 1]?).map (fun r => (reconcileRow cfg ts (fillRow r)).updated) := by
  have hus : us = ((rows.map fillRow).drop 1).map (fun r => (reconcileRow cfg ts r).updated) := by
    simp only [update_prices, if_true, List.map_map, Option.some.injEq] at h
    exact h.symm
  subst hus
  refine ⟨by simp, ?_⟩
  simp only [List.getElem?_map, List.getElem?_drop, Nat.add_comm 1 i]
  cases rows[i + 1]? <;> rfl

/-- C1 (witness for the amended theorem). -/
theorem first_row_dropped_witness :
    ([rowA1].length = [rowHdr, rowA].length - 1) ∧
    [rowA1][0]? = ([rowHdr, rowA][0 + 1]?).map
      (fun r => (reconcileRow cfgMin ts0 (fillRow r)).updated) :=
  first_row_dropped cfgMin ts0 [rowHdr, rowA] [rowA1] 0 (by decide)

/-- C2 (confirmed). A data row whose `Flag` cell does not pass the gate is
left untouched except for its annotation cell, which receives the skip note
with the timestamp; exactly one audit entry with `change_applied = 0` is
inserted and the row produces no `change_info`. -/
theorem skipped_flag_row_frame (cfg : Cfg) (ts : String) (row : Row)
    (h : flagIsSet row.flag = false) :
    reconcileRow cfg ts row =
      { updated := { row with prim := Cell.str ("Пропущено " ++ ts) },
        audits := [create_log_entry ts row Option.none Option.none Option.none Option.none
          Option.none Option.none ("Пропущено " ++ ts) 0],
        change := Option.none } := by
  simp [reconcileRow, h]

/-- C2 (witness). -/
theorem skipped_flag_row_frame_witness :
    reconcileRow cfgMin ts0 rowSkip =
      { updated := { rowSkip with prim := Cell.str ("Пропущено " ++ ts0) },
        audits := [create_log_entry ts0 rowSkip Option.none Option.none Option.none Option.none
          Option.none Option.none ("Пропущено " ++ ts0) 0],
        change := Option.none } :=
  skipped_flag_row_frame cfgMin ts0 rowSkip (by decide)

/-- C3 (counterexample). A processed, fully valid data row whose compared
values are all unchanged receives NO audit entry at all: the pass on a
header row plus one such row (store available, `updated` returned) inserts
nothing into the log table. -/
theorem silent_row_no_audit :
    (update_prices cfgMin ts0 true [rowHdr, rowEq]).audits = [] ∧
    (update_prices cfgMin ts0 true [rowHdr, rowEq]).updated = some [rowEq] := by
  decide

/-- C3 (amended). Each data row inserts AT MOST one audit entry per pass:
exactly one in the skip outcome, exactly one in the invalid-format outcome,
exactly one in the policy-reject outcome, exactly one in the
applied-change outcome, and the rows that insert no entry at all are
exactly the silent no-change rows (gate passed, validation clean, check
accepted, no field delta). -/
theorem audit_one_per_outcome (cfg : Cfg) (ts : String) (row : Row) :
    (reconcileRow cfg ts row).audits.length ≤ 1 ∧
    (flagIsSet row.flag = false → (reconcileRow cfg ts row).audits.length = 1) ∧
    (validate_discounts_and_prices cfg row ≠ [] →
      (reconcileRow cfg ts row).audits.length = 1) ∧
    ((check_price_change (validate_price row.old_price) (validate_price row.price)).1 = false →
      (reconcileRow cfg ts row).audits.length = 1) ∧
    ((reconcileRow cfg ts row).change.isSome = true →
      (reconcileRow cfg ts row).audits.length = 1) ∧
    ((reconcileRow cfg ts row).audits = [] ↔ silentRow cfg row) := by
  unfold silentRow
  by_cases hf : flagIsSet row.flag = false
  · simp [reconcileRow, hf]
  · have hf2 : flagIsSet row.flag = true := by
      revert hf; cases flagIsSet row.flag <;> simp
    by_cases hv : validate_discounts_and_prices cfg row = []
    · by_cases hc :
        (check_price_change (validate_price row.old_price) (validate_price row.price)).1 = false
      · simp [reconcileRow, hf, hv, hc, hf2]
      · have hc2 :
          (check_price_change (validate_price row.old_price) (validate_price row.price)).1
            = true := by
          revert hc
          cases (check_price_change (validate_price row.old_price)
            (validate_price row.price)).1 <;> simp
        by_cases hA : (validate_price row.price ≠ validate_price row.old_price ∨
            (discDelta cfg row).isSome = true ∨ (minDelta cfg row).isSome = true)
        · refine ⟨?_, ?_, ?_, ?_, ?_, ?_⟩
          · simp [reconcileRow, applyChanges, hf, hv, hc, hA]
          · simp [hf2]
          · simp [hv]
          · simp [hc2]
          · intro h2
            simp [reconcileRow, applyChanges, hf, hv, hc, hA]
          · constructor
            · intro habs
              exfalso
              have h1 : (reconcileRow cfg ts row).audits.length = 1 := by
                simp [reconcileRow, applyChanges, hf, hv, hc, hA]
              rw [habs] at h1
              exact absurd h1 (by decide)
            · intro hrhs
              exfalso
              rcases hA with h | h | h
              · exact h hrhs.2.2.2.1
              · rw [hrhs.2.2.2.2.1] at h
                exact absurd h (by decide)
              · rw [hrhs.2.2.2.2.2] at h
                exact absurd h (by decide)
        · push_neg at hA
          obtain ⟨hEq, hD, hM⟩ := hA
          have hD2 : (discDelta cfg row).isSome = false := by
            revert hD; cases (discDelta cfg row).isSome <;> simp
          have hM2 : (minDelta cfg row).isSome = false := by
            revert hM; cases (minDelta cfg row).isSome <;> simp
          have hc3 : (check_price_change (validate_price row.old_price)
              (validate_price row.old_price)).1 = true := hEq ▸ hc2
          have hres : reconcileRow cfg ts row =
              { updated := row, audits := [], change := Option.none } := by
            simp [reconcileRow, applyChanges, hf, hv, hc, hc3, hEq, hD2, hM2]
          rw [hres]
          simp [hf2, hv, hc2, hc3, hEq, hD2, hM2]
    · simp [reconcileRow, hf, hv, hf2]

/-- C3 (witness for the amended theorem, at the 100 → 105 row, whose
applied-change outcome logs exactly one entry). -/
theorem audit_one_per_outcome_witness :
    (reconcileRow cfgMin ts0 rowA).audits.length ≤ 1 ∧
    (flagIsSet rowA.flag = false → (reconcileRow cfgMin ts0 rowA).audits.length = 1) ∧
    (validate_discounts_and_prices cfgMin rowA ≠ [] →
      (reconcileRow cfgMin ts0 rowA).audits.length = 1) ∧
    ((check_price_change (validate_price rowA.old_price) (validate_price rowA.price)).1 = false →
      (reconcileRow cfgMin ts0 rowA).audits.length = 1) ∧
    ((reconcileRow cfgMin ts0 rowA).change.isSome = true →
      (reconcileRow cfgMin ts0 rowA).audits.length = 1) ∧
    ((reconcileRow cfgMin ts0 rowA).audits = [] ↔ silentRow cfgMin rowA) :=
  audit_one_per_outcome cfgMin ts0 rowA

/-- C4 (counterexample). On the spec's own scenario annotation
`"Изменена цена с 100 на 105"` the merger recovers the 4th word `100` — the
OLD price — not `105`, and the merged row's price is overwritten with 100. -/
theorem merge_recovers_old_price_not_new :
    (process_row "Изменена цена с 100 на 105").2 = some 100 ∧
    (process_row "Изменена цена с 100 на 105").2 ≠ some 105 ∧
    (update_and_merge_dataframes [mBase] [mRej]).map MRow.price = [Cell.num 100] ∧
    Cell.num (100 : ℚ) ≠ Cell.num (105 : ℚ) := by
  decide

/-- C4 (amended). Given a rejected row annotated
`"Изменена цена с 100 на 105"`, the merger extracts the 4th
whitespace-delimited token — `100`, the old price in this message format —
as the recovered price, rewrites the annotation to the marketplace-failure
message followed by the annotation's tail, and overwrites the matching
merged row's price with 100 (not 105). -/
theorem merge_scenario_recovers_100 :
    update_and_merge_dataframes [mBase] [mRej] =
      [{ key := "k",
         prim := "Ошибка от маркетплейса при попытке изменения цены с 100 на 105",
         price := Cell.num 100 }] ∧
    process_row "Изменена цена с 100 на 105" =
      ("Ошибка от маркетплейса при попытке изменения цены с 100 на 105", some 100) := by
  decide

/-- C5 (counterexample). The input `old_price = 100, new_price = 0`
satisfies the claim's hypothesis (`old ≠ 0` and `|new - old| / old > 0.5`),
but the row is annotated with the new-zero message, not the bound-exceeded
message. -/
theorem bound_message_differs_at_zero :
    |(0 : ℚ) - 100| / 100 > 1 / 2 ∧
    (reconcileRow cfgMin ts0 rowZero).updated.prim =
      Cell.str "Новая цена стала 0, требуется проверка (2024-01-01 00:00)" ∧
    (reconcileRow cfgMin ts0 rowZero).updated.prim ≠
      Cell.str "Изменение цены с 100.0 на 0.0 превышает 50%, цена не изменена (2024-01-01 00:00)" := by
  decide

/-- C5 (amended). For a processed, validation-clean row with validated
prices `old ≠ 0` and `|new - old| / old > 0.5`, the stored price is never
mutated, no change entry is produced and the single audit entry records
`change_applied = 0`; the annotation carries the reject message of
`check_price_change` — the bound-exceeded text when `new ≠ 0`, but the
new-zero text when `new = 0`. -/
theorem bound_reject_no_mutation (cfg : Cfg) (ts : String) (row : Row) (o n : ℚ)
    (hflag : flagIsSet row.flag = true)
    (herr : validate_discounts_and_prices cfg row = [])
    (hold : validate_price row.old_price = some o)
    (hnew : validate_price row.price = some n)
    (ho : o ≠ 0) (hb : |n - o| / o > 1 / 2) :
    (reconcileRow cfg ts row).updated.old_price = row.old_price ∧
    (reconcileRow cfg ts row).change = Option.none ∧
    (reconcileRow cfg ts row).audits.map AuditEntry.change_applied = [0] ∧
    (reconcileRow cfg ts row).updated.prim =
      Cell.str ((check_price_change (some o) (some n)).2 ++ " (" ++ ts ++ ")") ∧
    (n ≠ 0 → (check_price_change (some o) (some n)).2 =
      "Изменение цены с " ++ pyRepr o ++ " на " ++ pyRepr n ++
        " превышает 50%, цена не изменена") := by
  have hflag2 : ¬ (flagIsSet row.flag = false) := by simp [hflag]
  have hcheck : check_price_change (some o) (some n) =
      (false, if n = 0 then "Новая цена стала 0, требуется проверка"
        else "Изменение цены с " ++ pyRepr o ++ " на " ++ pyRepr n ++
          " превышает 50%, цена не изменена") := by
    by_cases hn : n = 0
    · simp only [check_price_change]
      rw [if_neg (fun h => h.2 hn), if_pos hn, if_pos hn]
    · simp only [check_price_change]
      rw [if_neg (fun h => ho h.1), if_neg hn, if_pos hb, if_neg hn]
  refine ⟨?_, ?_, ?_, ?_, ?_⟩
  · simp [reconcileRow, hflag2, herr, hold, hnew, hcheck]
  · simp [reconcileRow, hflag2, herr, hold, hnew, hcheck]
  · simp [reconcileRow, hflag2, herr, hold, hnew, hcheck, create_log_entry]
  · simp [reconcileRow, hflag2, herr, hold, hnew, hcheck]
  · intro hn
    simp [hcheck, hn]

/-- C5 (witness for the amended theorem, at the 100 → 160 row). -/
theorem bound_reject_no_mutation_witness :
    (reconcileRow cfgMin ts0 rowBig).updated.old_price = rowBig.old_price ∧
    (reconcileRow cfgMin ts0 rowBig).change = Option.none ∧
    (reconcileRow cfgMin ts0 rowBig).audits.map AuditEntry.change_applied = [0] ∧
    (reconcileRow cfgMin ts0 rowBig).updated.prim =
      Cell.str ((check_price_change (some 100) (some 160)).2 ++ " (" ++ ts0 ++ ")") ∧
    ((160 : ℚ) ≠ 0 → (check_price_change (some 100) (some 160)).2 =
      "Изменение цены с " ++ pyRepr 100 ++ " на " ++ pyRepr 160 ++
        " превышает 50%, цена не изменена") :=
  bound_reject_no_mutation cfgMin ts0 rowBig 100 160 (by decide) (by decide)
    (by decide) (by decide) (by decide) (by decide)

/-- C6 (confirmed). For a processed, validation-clean row with validated
`old_price = 0` and `new_price = n ≠ 0`, the zero-bootstrap rule fires: the
stored price becomes `n`, the single audit entry records
`change_applied = 1`, and the row joins the changed output. -/
theorem zero_bootstrap_applies (cfg : Cfg) (ts : String) (row : Row) (n : ℚ)
    (hflag : flagIsSet row.flag = true)
    (herr : validate_discounts_and_prices cfg row = [])
    (hold : validate_price row.old_price = some 0)
    (hnew : validate_price row.price = some n)
    (hn : n ≠ 0) :
    (reconcileRow cfg ts row).updated.old_price = Cell.num n ∧
    (reconcileRow cfg ts row).audits.map AuditEntry.change_applied = [1] ∧
    (reconcileRow cfg ts row).change.map ChangeInfo.change_applied = some true := by
  have hflag2 : ¬ (flagIsSet row.flag = false) := by simp [hflag]
  have hcheck : check_price_change (some 0) (some n) =
      (true, "Старая цена была 0, обновлено на " ++ pyRepr n) := by
    simp [check_price_change, hn]
  refine ⟨?_, ?_, ?_⟩ <;>
    simp [reconcileRow, applyChanges, hflag2, herr, hold, hnew, hcheck, optCell, hn,
      create_log_entry]

/-- C6 (witness, at the 0 → 50 row). -/
theorem zero_bootstrap_applies_witness :
    (reconcileRow cfgMin ts0 rowBoot).updated.old_price = Cell.num 50 ∧
    (reconcileRow cfgMin ts0 rowBoot).audits.map AuditEntry.change_applied = [1] ∧
    (reconcileRow cfgMin ts0 rowBoot).change.map ChangeInfo.change_applied = some true :=
  zero_bootstrap_applies cfgMin ts0 rowBoot 50 (by decide) (by decide) (by decide)
    (by decide) (by decide)

/-- C7 (counterexample). When both validated prices are 0, the Change
Policy does NOT classify the delta as a no-op: `check_price_change` rejects
it with the new-zero message (the code's second guard is plain
`new_price == 0`, with no `old_price != 0` condition), and the row's
annotation receives that reject message. -/
theorem equal_zero_prices_rejected :
    check_price_change (some 0) (some 0) =
      (false, "Новая цена стала 0, требуется проверка") ∧
    (reconcileRow cfgMin ts0 rowBothZero).updated.prim =
      Cell.str "Новая цена стала 0, требуется проверка (2024-01-01 00:00)" := by
  decide

/-- C7 (amended). For equal validated prices the stored price is never
mutated; equal nonzero prices pass `check_price_change` with an empty
message (a genuine no-op, no reject annotation), but the equal-zero pair is
rejected with the new-zero message. -/
theorem equal_prices_no_mutation (cfg : Cfg) (ts : String) (row : Row) (q : ℚ)
    (hflag : flagIsSet row.flag = true)
    (herr : validate_discounts_and_prices cfg row = [])
    (hold : validate_price row.old_price = some q)
    (hnew : validate_price row.price = some q) :
    (reconcileRow cfg ts row).updated.old_price = row.old_price ∧
    (q ≠ 0 → check_price_change (some q) (some q) = (true, "")) ∧
    (q = 0 → check_price_change (some q) (some q) =
      (false, "Новая цена стала 0, требуется проверка")) := by
  have hflag2 : ¬ (flagIsSet row.flag = false) := by simp [hflag]
  by_cases hq : q = 0
  · subst hq
    have hcheck : check_price_change (some 0) (some 0) =
        (false, "Новая цена стала 0, требуется проверка") := by
      simp [check_price_change]
    refine ⟨?_, fun h0 => absurd rfl h0, fun _ => hcheck⟩
    simp [reconcileRow, hflag2, herr, hold, hnew, hcheck]
  · have h3 : ¬ (|q - q| / q > 1 / 2) := by simp [sub_self]
    have hcheck : check_price_change (some q) (some q) = (true, "") := by
      simp only [check_price_change]
      rw [if_neg (fun h => hq h.1), if_neg hq, if_neg h3]
    refine ⟨?_, fun _ => hcheck, fun h0 => absurd h0 hq⟩
    by_cases hA : ((discDelta cfg row).isSome = true ∨ (minDelta cfg row).isSome = true)
    · simp [reconcileRow, applyChanges, hflag2, herr, hold, hnew, hcheck, hA]
    · simp [reconcileRow, applyChanges, hflag2, herr, hold, hnew, hcheck, hA]

/-- C7 (witness for the amended theorem, at the 100 → 100 row). -/
theorem equal_prices_no_mutation_witness :
    (reconcileRow cfgMin ts0 rowEq).updated.old_price = rowEq.old_price ∧
    ((100 : ℚ) ≠ 0 → check_price_change (some 100) (some 100) = (true, "")) ∧
    ((100 : ℚ) = 0 → check_price_change (some 100) (some 100) =
      (false, "Новая цена стала 0, требуется проверка")) :=
  equal_prices_no_mutation cfgMin ts0 rowEq 100 (by decide) (by decide) (by decide) (by decide)

/-- C8 (confirmed). A malformed row never aborts the pass: it is annotated
with the validation message, audited with `change_applied = 0` and produces
no change entry, while the pass still returns an updated dataframe; the
whole pass fails only on a storage failure, in which case both outputs are
`None` and nothing is persisted. -/
theorem failure_semantics (cfg : Cfg) (ts : String) (rows : List Row) (row : Row)
    (hmal : validate_discounts_and_prices cfg row ≠ [])
    (hflag : flagIsSet row.flag = true) :
    (update_prices cfg ts false rows).updated = Option.none ∧
    (update_prices cfg ts false rows).changed = Option.none ∧
    ((update_prices cfg ts true rows).updated).isSome = true ∧
    (reconcileRow cfg ts row).audits.map AuditEntry.change_applied = [0] ∧
    (reconcileRow cfg ts row).change = Option.none ∧
    (reconcileRow cfg ts row).updated =
      { row with prim := Cell.str (pyJoin "; " (validate_discounts_and_prices cfg row) ++
        " (" ++ ts ++ ")") } := by
  have hflag2 : ¬ (flagIsSet row.flag = false) := by simp [hflag]
  refine ⟨rfl, rfl, ?_, ?_, ?_, ?_⟩
  · simp [update_prices]
  · simp [reconcileRow, hflag2, hmal, create_log_entry]
  · simp [reconcileRow, hflag2, hmal]
  · simp [reconcileRow, hflag2, hmal]

/-- C8 (witness, at the row with the unparseable base discount). -/
theorem failure_semantics_witness :
    (update_prices cfgFull ts0 false [rowHdr, rowBadDisc]).updated = Option.none ∧
    (update_prices cfgFull ts0 false [rowHdr, rowBadDisc]).changed = Option.none ∧
    ((update_prices cfgFull ts0 true [rowHdr, rowBadDisc]).updated).isSome = true ∧
    (reconcileRow cfgFull ts0 rowBadDisc).audits.map AuditEntry.change_applied = [0] ∧
    (reconcileRow cfgFull ts0 rowBadDisc).change = Option.none ∧
    (reconcileRow cfgFull ts0 rowBadDisc).updated =
      { rowBadDisc with prim := Cell.str (pyJoin "; "
        (validate_discounts_and_prices cfgFull rowBadDisc) ++ " (" ++ ts0 ++ ")") } :=
  failure_semantics cfgFull ts0 [rowHdr, rowBadDisc] rowBadDisc (by decide) (by decide)

/-- The per-pass list of `(change_info, updated_row)` pairs: each change
entry paired with the updated row produced by the same loop iteration. -/
def changePairs (cfg : Cfg) (ts : String) (rows : List Row) : List (ChangeInfo × Row) :=
  (((rows.map fillRow).drop 1).map (reconcileRow cfg ts)).filterMap
    (fun p => p.change.map (fun c => (c, p.updated)))

/-- Projecting the change components of the pairs recovers exactly the
`changes` list of the pass. -/
lemma pairs_map_fst (results : List RowResult) :
    (results.filterMap (fun p => p.change.map (fun c => (c, p.updated)))).map Prod.fst =
      results.filterMap RowResult.change := by
  induction results with
  | nil => rfl
  | cons p ps ih =>
    cases hp : p.change <;> simp [List.filterMap_cons, hp, ih]

/-- Projecting the updated-row components of the pairs yields a sublist of
the updated output, in order. -/
lemma pairs_map_snd_sublist (results : List RowResult) :
    ((results.filterMap (fun p => p.change.map (fun c => (c, p.updated)))).map
      Prod.snd).Sublist (results.map RowResult.updated) := by
  induction results with
  | nil => simp
  | cons p ps ih =>
    cases hp : p.change with
    | none =>
      simp only [List.filterMap_cons, hp, Option.map_none, List.map_cons]
      exact ih.cons _
    | some c =>
      simp only [List.filterMap_cons, hp, Option.map_some, List.map_cons]
      exact ih.cons₂ _

/-- Every change entry a loop iteration emits carries
`change_applied = true`. -/
lemma change_applied_true (cfg : Cfg) (ts : String) (row : Row) (c : ChangeInfo)
    (h : (reconcileRow cfg ts row).change = some c) : c.change_applied = true := by
  by_cases hf : flagIsSet row.flag = false
  · simp [reconcileRow, hf] at h
  · by_cases hv : validate_discounts_and_prices cfg row = []
    · by_cases hc :
        (check_price_change (validate_price row.old_price) (validate_price row.price)).1 = false
      · simp [reconcileRow, hf, hv, hc] at h
      · by_cases hA : (validate_price row.price ≠ validate_price row.old_price ∨
            (discDelta cfg row).isSome = true ∨ (minDelta cfg row).isSome = true)
        · simp only [reconcileRow, applyChanges, if_neg hf, if_neg (by simp [hv] : ¬ (validate_discounts_and_prices cfg row ≠ [])), if_neg hc, if_pos hA, Option.some.injEq] at h
          rw [← h]
        · simp [reconcileRow, applyChanges, hf, hv, hc, hA] at h
    · simp [reconcileRow, hf, hv] at h

/-- C9 (counterexample). The changed-rows entry for the 100 → 105 row does
not equal the corresponding updated row field for field: the change entry
keeps the original `OLD_PRICE` (100) and the original `Flag`, while the
updated row holds 105 and a cleared flag. -/
theorem changed_entry_differs_from_updated :
    (update_prices cfgMin ts0 true [rowHdr, rowA]).updated = some [rowA1] ∧
    (update_prices cfgMin ts0 true [rowHdr, rowA]).changed = some [changeA] ∧
    changeA.row ≠ rowA1 ∧ changeA.row.old_price ≠ rowA1.old_price := by
  decide

/-- C9 (amended). The changed output lists exactly the change entries of
the rows that applied a change, in input order: pairing each entry with the
updated row of the same iteration, the first projections give the changed
output, the second projections form an order-preserving sublist of the
updated output, and every entry carries `change_applied = true`; each entry
is built from the original row values (with the new price written into the
new-price column), not from the updated row. -/
theorem changed_rows_subsequence (cfg : Cfg) (ts : String) (rows : List Row)
    (us : List Row) (cs : List ChangeInfo)
    (hu : (update_prices cfg ts true rows).updated = some us)
    (hc : (update_prices cfg ts true rows).changed = some cs) :
    (changePairs cfg ts rows).map Prod.fst = cs ∧
    ((changePairs cfg ts rows).map Prod.snd).Sublist us ∧
    (changePairs cfg ts rows).all (fun p => p.1.change_applied) = true := by
  have hus : us =
      (((rows.map fillRow).drop 1).map (reconcileRow cfg ts)).map RowResult.updated := by
    simp only [update_prices, if_true, Option.some.injEq] at hu
    exact hu.symm
  have hcs : cs =
      (((rows.map fillRow).drop 1).map (reconcileRow cfg ts)).filterMap RowResult.change := by
    simp only [update_prices, if_true] at hc
    by_cases hnil :
      (((rows.map fillRow).drop 1).map (reconcileRow cfg ts)).filterMap RowResult.change = []
    · rw [if_pos hnil] at hc
      exact absurd hc (by simp)
    · rw [if_neg hnil] at hc
      exact (Option.some.inj hc).symm
  refine ⟨?_, ?_, ?_⟩
  · rw [changePairs, pairs_map_fst]
    exact hcs.symm
  · rw [changePairs, hus]
    exact pairs_map_snd_sublist _
  · rw [List.all_eq_true]
    intro p hp
    rw [changePairs] at hp
    obtain ⟨q, hq, hqp⟩ := List.mem_filterMap.1 hp
    obtain ⟨r, _, rfl⟩ := List.mem_map.1 hq
    cases hqc : (reconcileRow cfg ts r).change with
    | none => rw [hqc] at hqp; simp at hqp
    | some c =>
      rw [hqc] at hqp
      simp only [Option.map_some', Option.some.injEq] at hqp
      rw [← hqp]
      exact change_applied_true cfg ts r c hqc

/-- C9 (witness for the amended theorem). -/
theorem changed_rows_subsequence_witness :
    (changePairs cfgMin ts0 [rowHdr, rowA]).map Prod.fst = [changeA] ∧
    ((changePairs cfgMin ts0 [rowHdr, rowA]).map Prod.snd).Sublist [rowA1] ∧
    (changePairs cfgMin ts0 [rowHdr, rowA]).all (fun p => p.1.change_applied) = true :=
  changed_rows_subsequence cfgMin ts0 [rowHdr, rowA] [rowA1] [changeA]
    (by decide) (by decide)

/-- C10 (confirmed). Reconciliation is idempotent: feeding the updated
dataframe of one pass back into `update_prices` (with no external edits)
yields no changed rows — rows that applied a change had their `Flag`
cleared and are skipped, and every other row repeats its non-changing
outcome. -/
theorem second_pass_no_changes (cfg : Cfg) (t1 t2 : String) (rows u : List Row)
    (h : (update_prices cfg t1 true rows).updated = some u) :
    (update_prices cfg t2 true u).changed = Option.none := by
  have hu : u =
      (((rows.map fillRow).drop 1).map (reconcileRow cfg t1)).map RowResult.updated := by
    simp only [update_prices, if_true, Option.some.injEq] at h
    exact h.symm
  have hnil : (((u.map fillRow).drop 1).map (reconcileRow cfg t2)).filterMap
      RowResult.change = [] := by
    rw [List.filterMap_eq_nil_iff]
    intro p hp
    obtain ⟨x, hx, rfl⟩ := List.mem_map.1 hp
    have hx2 : x ∈ u.map fillRow := List.mem_of_mem_drop hx
    obtain ⟨y, hy, rfl⟩ := List.mem_map.1 hx2
    rw [hu] at hy
    obtain ⟨q, hq, rfl⟩ := List.mem_map.1 hy
    obtain ⟨r, hr, rfl⟩ := List.mem_map.1 hq
    have hr2 : r ∈ rows.map fillRow := List.mem_of_mem_drop hr
    obtain ⟨r0, _, rfl⟩ := List.mem_map.1 hr2
    exact second_pass_change_none cfg t1 t2 (fillRow r0) (fillRow_fillRow r0)
  rw [show (update_prices cfg t2 true u).changed =
      (if (((u.map fillRow).drop 1).map (reconcileRow cfg t2)).filterMap RowResult.change = []
        then Option.none
        else some ((((u.map fillRow).drop 1).map
          (reconcileRow cfg t2)).filterMap RowResult.change))
      from rfl, if_pos hnil]

/-- C10 (witness): a three-row input whose data rows are one applied change
and one skipped row; the second pass over the first pass's updated output
reports no changes. -/
theorem second_pass_no_changes_witness :
    (update_prices cfgMin ts1 true [rowA1, rowSkip1]).changed = Option.none :=
  second_pass_no_changes cfgMin ts0 ts1 [rowHdr, rowA, rowSkip] [rowA1, rowSkip1]
    (by decide)

end DecidableEvaluation

end DataUpdater
